/-
Verification of the IMS crawler orchestrator (src/crawler/ims_scraper.py)
against its natural-language specification.

The definitions below are a shallow embedding of `IMSScraper`: pure slices
of the code (worker sizing, child-task spawning, crawl-order attachment,
statistics) become Lean functions; the concurrent dedup registry becomes a
step relation over an explicit shared state; the top-level `crawl` control
flow becomes a function from an abstract environment (collaborator results)
to an output record of observable effects.
-/
import Mathlib

namespace IMSCrawler

/-! ## Worker-pool sizing (ims_scraper.py line 181)

`num_workers = max(1, min(10, int(len(issue_links) * 0.3)))`.

Python's `int(n * 0.3)` truncates the float product toward zero; for every
seed count `n` in the feasible range the truncated float product coincides
with `⌊3 n / 10⌋` (the float error of `n * 0.3` is far smaller than the
distance from `3n/10` to the next integer, and at multiples of 10 the
product rounds to the exact integer), so the Nat model is exact. -/

def num_workers (n : Nat) : Nat := max 1 (min 10 (3 * n / 10))

/-! ## Saving one issue (`_save_issue`, ims_scraper.py lines 785-831)

The whole body is wrapped in `try ... except Exception: logger.error(...)`,
so no exception ever escapes `_save_issue`.  Inside:
- the JSON file write (primary store) comes first; if it raises, the
  duration record and the database mirror are skipped,
- the duration is appended to `_issue_times` only `if crawl_duration_ms:`
  (Python truthiness: `None` and `0` are skipped),
- the database save has its own inner `try/except` that only logs. -/

structure SaveEnv where
  fileOk : Bool      -- the primary JSON-file write succeeds
  dbEnabled : Bool   -- `self.db_saver` is set
  dbOk : Bool        -- the secondary database save succeeds
  deriving DecidableEq, Repr

structure SaveResult where
  raised : Bool         -- an exception escapes `_save_issue`
  fileSaved : Bool
  dbSaved : Bool
  timeRecorded : Bool   -- duration appended to `_issue_times`
  deriving DecidableEq, Repr

def save_issue (env : SaveEnv) (crawl_duration_ms : Option Nat) : SaveResult :=
  if env.fileOk then
    { raised := false
      fileSaved := true
      dbSaved := env.dbEnabled && env.dbOk
      timeRecorded := match crawl_duration_ms with
        | some d => d ≠ 0
        | none => false }
  else
    -- the outer `except` catches the write failure and only logs it
    { raised := false, fileSaved := false, dbSaved := false, timeRecorded := false }

/-- In `_crawl_with_related_parallel` the issue record is appended to the
branch result (line 358) before `_save_issue` is called (line 361); the
branch fails only if an exception escapes into the handler at line 391.
So the branch outcome after the save step is successful iff the save did
not raise. -/
def branch_success_after_save (env : SaveEnv) (crawl_duration_ms : Option Nat) : Bool :=
  !(save_issue env crawl_duration_ms).raised

/-! ## Related-issue fan-out (ims_scraper.py lines 363-390)

`if crawl_related and current_depth < max_depth:` iterate over the
record's `related_issues`, skip entries whose `issue_no` is empty, build
the related URL and recurse at `current_depth + 1`. -/

structure RelatedRef where
  issue_no : String
  deriving DecidableEq, Repr

def related_issue_url (no : String) : String :=
  "https://ims.tmaxsoft.com/tody/ims/issue/issueView.do?issueId=" ++ no
    ++ "&menuCode=issue_search"

/-- The child tasks (URL, depth) spawned by one task, from lines 363-390. -/
def spawn_children (crawl_related : Bool) (current_depth max_depth : Nat)
    (related_issues : List RelatedRef) : List (String × Nat) :=
  if crawl_related ∧ current_depth < max_depth then
    (related_issues.filter (fun r => r.issue_no ≠ "")).map
      (fun r => (related_issue_url r.issue_no, current_depth + 1))
  else []

/-! ## The shared dedup set (ims_scraper.py lines 318-324 and 391-396)

Every branch of `_crawl_with_related_parallel` — whether started for a
seed or for a discovered related issue — interacts with the shared
`crawled_issue_ids` set only through two atomic regions guarded by
`self._crawled_lock`:

- lines 319-323: test-and-add — if the id is already present the branch
  returns `[]` (dropped); otherwise the id is added and the branch
  proceeds to fetch;
- lines 394-395: on a failure escaping the fetch, the id is discarded
  from the set and the exception re-raised.

A successful fetch persists the record (`_save_issue`, which never
raises) and leaves the id in the set forever.  We model an arbitrary
interleaving of these atomic regions as a step relation on the shared
state; `inflight` holds the ids whose claiming branch is currently
between the test-and-add and its terminal success or failure. -/

structure DedupState where
  claimed : List String    -- contents of `crawled_issue_ids`
  inflight : List String   -- ids claimed but not yet resolved
  persisted : List String  -- ids saved by `_save_issue`, in save order
  deriving DecidableEq, Repr

def initState : DedupState := ⟨[], [], []⟩

inductive DedupStep : DedupState → DedupState → Prop
  /-- Lines 319-323, id not present: add it and start fetching. -/
  | claim_new (s : DedupState) (id : String) (h : id ∉ s.claimed) :
      DedupStep s ⟨id :: s.claimed, id :: s.inflight, s.persisted⟩
  /-- Lines 320-322, id already present: the branch is dropped silently. -/
  | claim_dup (s : DedupState) (id : String) (h : id ∈ s.claimed) :
      DedupStep s s
  /-- Lines 346-361: the fetch succeeds and the record is saved; the id
  stays in the set. -/
  | fetch_ok (s : DedupState) (id : String) (h : id ∈ s.inflight) :
      DedupStep s ⟨s.claimed, s.inflight.erase id, s.persisted ++ [id]⟩
  /-- Lines 391-396: the fetch fails; the id is discarded from the set. -/
  | fetch_fail (s : DedupState) (id : String) (h : id ∈ s.inflight) :
      DedupStep s ⟨s.claimed.erase id, s.inflight.erase id, s.persisted⟩

inductive Reachable : DedupState → Prop
  | init : Reachable initState
  | step {s t : DedupState} : Reachable s → DedupStep s t → Reachable t

/-- The inductive invariant of the shared dedup state. -/
structure DedupInv (s : DedupState) : Prop where
  inflight_nodup : s.inflight.Nodup
  inflight_claimed : ∀ i ∈ s.inflight, i ∈ s.claimed
  persisted_nodup : s.persisted.Nodup
  persisted_claimed : ∀ i ∈ s.persisted, i ∈ s.claimed
  inflight_not_persisted : ∀ i ∈ s.inflight, i ∉ s.persisted

/-- The sizing policy in the spec's shape, `clamp(x, 1, 10)` written as
`min 10 (max 1 x)`, with the rounding of `0.3 * N` replaced by the
truncation the code actually performs (the amendment the counterexample
forces). -/
def workers_clamp_trunc (n : Nat) : Nat := min 10 (max 1 (3 * n / 10))
/-! ## Top-level control flow of `crawl` (ims_scraper.py lines 90-283)

The method is modelled as a function from an environment — the results
the collaborators would return — to a record of its observable effects.
Following the code:
- line 111-112: `if not self.page: raise RuntimeError(...)` before any
  other statement;
- line 115: `_crawl_start_time` is set before the database session, the
  authentication and the search;
- lines 119-137: the database session is created (if `db_saver` is set);
- line 142: `auth_manager.login`; `AuthenticationError` propagates via
  lines 256-269 after marking the session failed;
- lines 151-156: `_execute_search` is timed on its own; any exception
  propagates via lines 270-283 after marking the session failed;
- lines 185-220: one future per seed; a future that raises is logged and
  skipped (`continue`), the others' results are all collected;
- lines 227-229: `crawl_time_ms = (end - _crawl_start_time) - search_time_ms`;
- lines 238-249: `complete_session(status='completed')`. -/

inductive CrawlErr
  | runtimeError   -- line 112
  | authError      -- AuthenticationError, re-raised at line 269
  | searchError    -- exception from `_execute_search`, re-raised at line 283
  deriving DecidableEq, Repr

structure CrawlEnv where
  pageReady : Bool            -- `self.page` was set by `__enter__`
  dbEnabled : Bool            -- `self.db_saver` is set
  authOk : Bool               -- `auth_manager.login` succeeds
  searchOk : Bool             -- `_execute_search` returns without raising
  searchLinks : List String   -- the seed issue URLs the search returns
  branch : String → Option (List String)
    -- per-seed future: the records it returns, or `none` if it raised
  preSearchMs : Nat           -- elapsed from line 115 until the search starts
  searchMs : Nat              -- elapsed inside `_execute_search`
  postSearchMs : Nat          -- elapsed from search end until completion

structure CrawlOutput where
  raised : Option CrawlErr    -- exception propagated to the caller
  sessionStatus : Option String  -- `complete_session` status, if db enabled
  issues : List String        -- `all_crawled_issues`
  searchTimeMs : Option Nat   -- `self._search_time_ms`
  crawlTimeMs : Option Nat    -- `crawl_time_ms` of line 229
  dbSessionCreated : Bool
  authAttempted : Bool
  searchAttempted : Bool
  branchesRun : Nat           -- number of seed futures submitted

def crawl (env : CrawlEnv) : CrawlOutput :=
  if !env.pageReady then
    { raised := some .runtimeError, sessionStatus := none, issues := [],
      searchTimeMs := none, crawlTimeMs := none, dbSessionCreated := false,
      authAttempted := false, searchAttempted := false, branchesRun := 0 }
  else if !env.authOk then
    { raised := some .authError,
      sessionStatus := if env.dbEnabled then some "failed" else none,
      issues := [], searchTimeMs := none, crawlTimeMs := none,
      dbSessionCreated := env.dbEnabled, authAttempted := true,
      searchAttempted := false, branchesRun := 0 }
  else if !env.searchOk then
    { raised := some .searchError,
      sessionStatus := if env.dbEnabled then some "failed" else none,
      issues := [], searchTimeMs := none, crawlTimeMs := none,
      dbSessionCreated := env.dbEnabled, authAttempted := true,
      searchAttempted := true, branchesRun := 0 }
  else
    { raised := none,
      sessionStatus := if env.dbEnabled then some "completed" else none,
      issues := env.searchLinks.flatMap (fun l => (env.branch l).getD []),
      searchTimeMs := some env.searchMs,
      crawlTimeMs :=
        some (env.preSearchMs + env.searchMs + env.postSearchMs - env.searchMs),
      dbSessionCreated := env.dbEnabled, authAttempted := true,
      searchAttempted := true, branchesRun := env.searchLinks.length }

/-- Concrete environment for the witnesses: two seeds, the first future
raises, the second returns one record. -/
def envTwoSeeds : CrawlEnv :=
  { pageReady := true, dbEnabled := true, authOk := true, searchOk := true,
    searchLinks := ["u1", "u2"],
    branch := fun l => if l = "u2" then some ["i2"] else none,
    preSearchMs := 5, searchMs := 10, postSearchMs := 20 }

/-- Concrete environment in which authentication fails. -/
def envAuthFail : CrawlEnv :=
  { pageReady := true, dbEnabled := true, authOk := false, searchOk := true,
    searchLinks := ["u1"], branch := fun _ => some ["i1"],
    preSearchMs := 5, searchMs := 10, postSearchMs := 20 }

/-- Concrete environment in which the scraper was never initialized. -/
def envNoPage : CrawlEnv :=
  { pageReady := false, dbEnabled := true, authOk := true, searchOk := true,
    searchLinks := ["u1"], branch := fun _ => some ["i1"],
    preSearchMs := 5, searchMs := 10, postSearchMs := 20 }

/-! ## Per-issue time statistics (ims_scraper.py lines 810-814 and 230-233)

`_save_issue` appends the duration to `self._issue_times` only
`if crawl_duration_ms:` — Python truthiness, so `None` and `0` are both
skipped (lines 810-814).  At completion,
`avg_issue_time_ms = int(sum(times) / len(times)) if times else 0`
(line 232): true division followed by `int`, i.e. the floor for the
nonnegative values involved. -/

/-- One `_save_issue` call's effect on `self._issue_times` (lines 810-814). -/
def record_time (times : List Nat) (crawl_duration_ms : Option Nat) : List Nat :=
  match crawl_duration_ms with
  | some v => if v ≠ 0 then times ++ [v] else times
  | none => times

/-- `self._issue_times` after the sequence of `_save_issue` calls whose
`crawl_duration_ms` arguments are `ds`. -/
def final_issue_times (ds : List (Option Nat)) : List Nat :=
  ds.foldl record_time []

/-- Line 232: `int(sum(times) / len(times)) if times else 0`. -/
def avg_issue_time_ms (times : List Nat) : Nat :=
  if times = [] then 0 else times.sum / times.length

/-- Modelled from the spec's words for comparison: the arithmetic mean of
a list of durations, 0 when the list is empty. -/
def arithmetic_mean (ds : List Nat) : ℚ :=
  if ds = [] then 0 else (ds.sum : ℚ) / ds.length
/-! ## Crawl-order assignment (ims_scraper.py lines 186-198, 354-357, 379-385)

The orchestrator submits one branch per seed with
`enumerate(issue_links, 1)` passing the 1-based index as `crawl_order`
(lines 186-198).  Inside a branch, `if crawl_order:
issue_data['crawl_order'] = crawl_order` (lines 354-356, Python
truthiness), and the recursive calls for related issues pass no
`crawl_order` at all (lines 379-385), so every related record keeps the
field absent.  The branch recursion is modelled with the fetch abstracted
to a success predicate and a related-ids function; the shared dedup set
(modelled separately by `DedupStep`) only removes records from the result
and cannot create a duplicate order. -/

structure IssueRecord where
  issue_id : String
  crawl_order : Option Nat
  deriving DecidableEq, Repr

/-- Lines 354-356: `if crawl_order: issue_data['crawl_order'] = crawl_order`. -/
def set_crawl_order (data : IssueRecord) (crawl_order : Option Nat) : IssueRecord :=
  match crawl_order with
  | some k => if k ≠ 0 then { data with crawl_order := some k } else data
  | none => data

/-- One branch of `_crawl_with_related_parallel` (lines 285-403): fetch
the issue, attach the crawl order, recurse into related issues while
`current_depth < max_depth`; a failed fetch contributes nothing (the
branch raises and its results are dropped at lines 207-220). -/
def crawl_branch (fetchOk : String → Bool) (related : String → List String)
    (crawl_related : Bool) (max_depth : Nat) (current_depth : Nat) (id : String)
    (crawl_order : Option Nat) : List IssueRecord :=
  if fetchOk id then
    set_crawl_order ⟨id, none⟩ crawl_order ::
      (if crawl_related ∧ current_depth < max_depth then
        ((related id).filter (fun r => r ≠ "")).flatMap
          (fun r => crawl_branch fetchOk related crawl_related max_depth
            (current_depth + 1) r none)
      else [])
  else []
termination_by max_depth - current_depth
decreasing_by omega

/-- Lines 186-198: one branch per seed, `crawl_order` from
`enumerate(issue_links, 1)`; the collected records of all branches. -/
def crawl_all_records (fetchOk : String → Bool) (related : String → List String)
    (crawl_related : Bool) (max_depth : Nat) (links : List String) :
    List IssueRecord :=
  (List.enumFrom 1 links).flatMap
    (fun p => crawl_branch fetchOk related crawl_related max_depth 0 p.2
      (some p.1))


theorem dedupInv_step {s t : DedupState} (inv : DedupInv s)
    (st : DedupStep s t) : DedupInv t := by
  cases st with
  | claim_new id h =>
    refine ⟨?_, ?_, inv.persisted_nodup, ?_, ?_⟩
    · exact List.nodup_cons.2
        ⟨fun hm => h (inv.inflight_claimed id hm), inv.inflight_nodup⟩
    · intro i hi
      rcases List.mem_cons.1 hi with rfl | hi
      · exact List.mem_cons_self _ _
      · exact List.mem_cons_of_mem _ (inv.inflight_claimed i hi)
    · intro i hi
      exact List.mem_cons_of_mem _ (inv.persisted_claimed i hi)
    · intro i hi
      rcases List.mem_cons.1 hi with rfl | hi
      · exact fun hp => h (inv.persisted_claimed i hp)
      · exact inv.inflight_not_persisted i hi
  | claim_dup id h => exact inv
  | fetch_ok id h =>
    refine ⟨inv.inflight_nodup.erase id, ?_, ?_, ?_, ?_⟩
    · intro i hi
      exact inv.inflight_claimed i (List.mem_of_mem_erase hi)
    · refine List.nodup_append.2
        ⟨inv.persisted_nodup, List.nodup_singleton id, ?_⟩
      intro a ha hb
      rcases List.mem_singleton.1 hb with rfl
      exact inv.inflight_not_persisted a h ha
    · intro i hi
      rcases List.mem_append.1 hi with hi | hi
      · exact inv.persisted_claimed i hi
      · rcases List.mem_singleton.1 hi with rfl
        exact inv.inflight_claimed i h
    · intro i hi hp
      have hine : i ≠ id ∧ i ∈ s.inflight :=
        (inv.inflight_nodup.mem_erase_iff).1 hi
      rcases List.mem_append.1 hp with hp | hp
      · exact inv.inflight_not_persisted i hine.2 hp
      · exact hine.1 (List.mem_singleton.1 hp)
  | fetch_fail id h =>
    refine ⟨inv.inflight_nodup.erase id, ?_, inv.persisted_nodup, ?_, ?_⟩
    · intro i hi
      have hine : i ≠ id ∧ i ∈ s.inflight :=
        (inv.inflight_nodup.mem_erase_iff).1 hi
      exact (List.mem_erase_of_ne hine.1).2 (inv.inflight_claimed i hine.2)
    · intro i hi
      have hne : i ≠ id := by
        intro heq
        exact inv.inflight_not_persisted id h (heq ▸ hi)
      exact (List.mem_erase_of_ne hne).2 (inv.persisted_claimed i hi)
    · intro i hi
      exact inv.inflight_not_persisted i (List.mem_of_mem_erase hi)

theorem dedupInv_reachable {s : DedupState} (h : Reachable s) : DedupInv s := by
  induction h with
  | init =>
    exact ⟨List.nodup_nil, fun i hi => absurd hi (List.not_mem_nil i),
      List.nodup_nil, fun i hi => absurd hi (List.not_mem_nil i),
      fun i hi => absurd hi (List.not_mem_nil i)⟩
  | step _ st ih => exact dedupInv_step ih st

/-! ## Theorem for claim C1 -/

/-- Claim C1: along every interleaving of branch steps — seeds and
related-issue expansions claiming ids in the shared set concurrently —
no issue id is persisted more than once: the first branch to claim an id
proceeds, later branches are dropped, and an id leaves the set only when
its fetch fails (before it is persisted). -/
theorem dedup_no_duplicate_persist {s : DedupState} (h : Reachable s) :
    s.persisted.Nodup :=
  (dedupInv_reachable h).persisted_nodup

/-- Witness for `dedup_no_duplicate_persist`: the concrete trace in which
a branch claims id "999", fetches and persists it, and a second branch
then references "999" and is dropped as a duplicate. -/
theorem dedup_no_duplicate_persist_witness : ([] ++ ["999"]).Nodup := by
  have h1 : Reachable ⟨["999"], ["999"], []⟩ :=
    Reachable.step Reachable.init
      (DedupStep.claim_new initState "999" (by simp [initState]))
  have h2 : Reachable ⟨["999"], ["999"].erase "999", [] ++ ["999"]⟩ :=
    Reachable.step h1 (DedupStep.fetch_ok ⟨["999"], ["999"], []⟩ "999" (by simp))
  have h3 : Reachable ⟨["999"], ["999"].erase "999", [] ++ ["999"]⟩ :=
    Reachable.step h2
      (DedupStep.claim_dup ⟨["999"], ["999"].erase "999", [] ++ ["999"]⟩ "999"
        (by simp))
  exact dedup_no_duplicate_persist h3

/-! ## Theorems for claim C2 -/

/-- Claim C2, counterexample: the code truncates `0.3 * N` (Python `int`)
instead of rounding it, so for N = 5 seeds the worker pool has 1 worker,
not the 2 the claim derives from `round(1.5)`. -/
theorem num_workers_five_cex : num_workers 5 = 1 ∧ num_workers 5 ≠ 2 := by decide

/-- Claim C2 (amended): for every seed count N the worker-pool size equals
`clamp(trunc(0.3 * N), 1, 10)`; in particular `workers 0 = 1`,
`workers 1 = 1`, `workers 5 = 1` (not 2), `workers 10 = 3`,
`workers 40 = 10`. -/
theorem worker_sizing :
    (∀ n : Nat, num_workers n = workers_clamp_trunc n) ∧
    num_workers 0 = 1 ∧ num_workers 1 = 1 ∧ num_workers 5 = 1 ∧
    num_workers 10 = 3 ∧ num_workers 40 = 10 := by
  refine ⟨fun n => ?_, by decide, by decide, by decide, by decide, by decide⟩
  unfold num_workers workers_clamp_trunc
  omega

/-! ## Theorems for claim C3 -/

/-- Claim C3, counterexample: with the primary JSON-file write failing (and
the database mirror healthy), `_save_issue` swallows the exception — it
does not raise — and the owning task still yields a successful outcome,
contradicting "primary persistence failure is fatal to the task". -/
theorem save_primary_failure_cex :
    (save_issue ⟨false, true, true⟩ (some 5)).raised = false ∧
    branch_success_after_save ⟨false, true, true⟩ (some 5) = true ∧
    (save_issue ⟨false, true, true⟩ (some 5)).fileSaved = false := by decide

/-- Claim C3 (amended): every persistence failure — primary file store and
secondary database mirror alike — is caught and logged inside
`_save_issue`; the task never yields a failed outcome because of a
persistence failure.  A primary failure additionally skips the duration
record and the database mirror; a secondary failure alone leaves the
primary write intact. -/
theorem save_failures_absorbed (env : SaveEnv) (d : Option Nat) :
    (save_issue env d).raised = false ∧
    branch_success_after_save env d = true ∧
    (save_issue env d).fileSaved = env.fileOk ∧
    (save_issue env d).dbSaved = (env.fileOk && env.dbEnabled && env.dbOk) ∧
    (env.fileOk = false → (save_issue env d).timeRecorded = false) := by
  obtain ⟨fileOk, dbEnabled, dbOk⟩ := env
  cases fileOk <;>
    simp [save_issue, branch_success_after_save]

/-- Witness for `save_failures_absorbed`, at a concrete environment where
only the secondary store fails, and one where the primary write fails. -/
theorem save_failures_absorbed_witness :
    (save_issue ⟨true, true, false⟩ (some 7)).raised = false ∧
    branch_success_after_save ⟨true, true, false⟩ (some 7) = true ∧
    (save_issue ⟨true, true, false⟩ (some 7)).fileSaved = true ∧
    (save_issue ⟨true, true, false⟩ (some 7)).dbSaved = false ∧
    (save_issue ⟨false, false, true⟩ (some 7)).timeRecorded = false := by
  have h := save_failures_absorbed ⟨true, true, false⟩ (some 7)
  have h2 := save_failures_absorbed ⟨false, false, true⟩ (some 7)
  exact ⟨h.1, h.2.1, h.2.2.1, h.2.2.2.1, h2.2.2.2.2 rfl⟩

/-! ## Theorems for claim C4 -/

/-- Claim C4: a task whose depth has reached `max_depth` spawns no child
task regardless of how many related references its record contains; a task
at depth `d < max_depth` (with related crawling enabled) spawns one child
at depth `d + 1` for each related reference with a nonempty issue number. -/
theorem depth_bound (cr : Bool) (d md : Nat) (rel : List RelatedRef) :
    (md ≤ d → spawn_children cr d md rel = []) ∧
    (∀ c ∈ spawn_children cr d md rel, c.2 = d + 1) ∧
    (cr = true → d < md → ∀ r ∈ rel, r.issue_no ≠ "" →
      (related_issue_url r.issue_no, d + 1) ∈ spawn_children cr d md rel) := by
  refine ⟨fun h => ?_, fun c hc => ?_, fun hcr hd r hr hno => ?_⟩
  · simp [spawn_children, Nat.not_lt.2 h]
  · unfold spawn_children at hc
    split at hc
    · simp only [List.mem_map, List.mem_filter] at hc
      obtain ⟨r, _, hr⟩ := hc
      exact (congrArg Prod.snd hr).symm
    · simp at hc
  · subst hcr
    unfold spawn_children
    rw [if_pos ⟨rfl, hd⟩]
    exact List.mem_map.2 ⟨r, List.mem_filter.2 ⟨hr, by simpa using hno⟩, rfl⟩

/-- Witness for `depth_bound`: with `max_depth = 1`, a task at depth 1
spawns nothing even though it has a related reference, and a seed task at
depth 0 spawns a child at depth 1. -/
theorem depth_bound_witness :
    spawn_children true 1 1 [⟨"888"⟩] = [] ∧
    (related_issue_url "888", 1) ∈ spawn_children true 0 1 [⟨"888"⟩] := by
  refine ⟨(depth_bound true 1 1 [⟨"888"⟩]).1 (by decide), ?_⟩
  exact (depth_bound true 0 1 [⟨"888"⟩]).2.2 rfl (by decide) ⟨"888"⟩ (by simp)
    (by decide)

/-! ## Theorems for claim C5 -/

/-- Claim C5: when authentication and search succeed, per-seed failures are
absorbed: no exception propagates, the session is completed with status
"completed", and every record returned by any non-failing future is
collected — independently of how many other futures raised. -/
theorem failure_isolation (env : CrawlEnv) (hp : env.pageReady = true)
    (ha : env.authOk = true) (hs : env.searchOk = true)
    (hdb : env.dbEnabled = true) :
    (crawl env).raised = none ∧
    (crawl env).sessionStatus = some "completed" ∧
    (∀ l ∈ env.searchLinks, ∀ recs, env.branch l = some recs →
      ∀ r ∈ recs, r ∈ (crawl env).issues) := by
  refine ⟨?_, ?_, ?_⟩ <;> simp only [crawl, hp, ha, hs, hdb]
  · rfl
  · rfl
  · intro l hl recs hrecs r hr
    simp only [Bool.not_true, Bool.false_eq_true, if_false]
    exact List.mem_flatMap.2 ⟨l, hl, by simp [hrecs, hr]⟩

/-- Witness for `failure_isolation`: with two seeds of which the first
future raises, the session still completes and the second seed's record is
collected. -/
theorem failure_isolation_witness :
    (crawl envTwoSeeds).raised = none ∧
    (crawl envTwoSeeds).sessionStatus = some "completed" ∧
    "i2" ∈ (crawl envTwoSeeds).issues := by
  have h := failure_isolation envTwoSeeds rfl rfl rfl rfl
  exact ⟨h.1, h.2.1,
    h.2.2 "u2" (by simp [envTwoSeeds]) ["i2"] (by simp [envTwoSeeds])
      "i2" (by simp)⟩

/-! ## Theorems for claim C6 -/

/-- Claim C6: if the authenticator fails, `crawl` propagates
`AuthenticationError`, the database session is completed with status
"failed", and no seed future is ever submitted — zero issues attributable
to the run are collected or persisted. -/
theorem auth_failure_aborts (env : CrawlEnv) (hp : env.pageReady = true)
    (ha : env.authOk = false) (hdb : env.dbEnabled = true) :
    (crawl env).raised = some CrawlErr.authError ∧
    (crawl env).sessionStatus = some "failed" ∧
    (crawl env).issues = [] ∧
    (crawl env).branchesRun = 0 ∧
    (crawl env).searchAttempted = false := by
  simp [crawl, hp, ha, hdb]

/-- Witness for `auth_failure_aborts` at a concrete environment. -/
theorem auth_failure_aborts_witness :
    (crawl envAuthFail).raised = some CrawlErr.authError ∧
    (crawl envAuthFail).sessionStatus = some "failed" ∧
    (crawl envAuthFail).issues = [] ∧
    (crawl envAuthFail).branchesRun = 0 := by
  have h := auth_failure_aborts envAuthFail rfl rfl rfl
  exact ⟨h.1, h.2.1, h.2.2.1, h.2.2.2.1⟩

/-! ## Theorems for claim C9 -/

/-- Claim C9, counterexample: `_crawl_start_time` is taken at the very
start of `crawl()` (line 115), before authentication, so
`crawl_time_ms = total - search_time_ms` still contains the pre-search
time.  In `envTwoSeeds` the pre-search work takes 5 ms and the crawling
phase 20 ms, yet the reported crawl time is 25 ms, not the 20 ms elapsed
since the crawling phase began. -/
theorem crawl_time_cex :
    (crawl envTwoSeeds).crawlTimeMs = some 25 ∧
    envTwoSeeds.postSearchMs = 20 ∧
    (crawl envTwoSeeds).crawlTimeMs ≠ some envTwoSeeds.postSearchMs := by
  refine ⟨rfl, rfl, ?_⟩
  simp [crawl, envTwoSeeds]

/-- Claim C9 (amended): `searchTimeMs` is the elapsed time of the search
execution alone, but `crawlTimeMs` is the total time from the start of
`crawl()` (before the database session, authentication and query build)
to completion, minus `searchTimeMs` — it includes the pre-search time and
equals the CRAWLING-phase elapsed time only when that pre-search time is
zero. -/
theorem crawl_time_includes_presearch (env : CrawlEnv)
    (hp : env.pageReady = true) (ha : env.authOk = true)
    (hs : env.searchOk = true) :
    (crawl env).searchTimeMs = some env.searchMs ∧
    (crawl env).crawlTimeMs = some (env.preSearchMs + env.postSearchMs) := by
  have harith : env.preSearchMs + env.searchMs + env.postSearchMs - env.searchMs
      = env.preSearchMs + env.postSearchMs := by omega
  simp [crawl, hp, ha, hs, harith]

/-- Witness for `crawl_time_includes_presearch` at the concrete
environment `envTwoSeeds` (5 ms pre-search, 10 ms search, 20 ms crawl). -/
theorem crawl_time_includes_presearch_witness :
    (crawl envTwoSeeds).searchTimeMs = some 10 ∧
    (crawl envTwoSeeds).crawlTimeMs = some 25 :=
  crawl_time_includes_presearch envTwoSeeds rfl rfl rfl

/-! ## Theorems for claim C10 -/

/-- Claim C10: calling `crawl()` on a scraper that was not initialized
through its context manager raises `RuntimeError` immediately: no database
session is created, no authentication or search is attempted, no seed
future is submitted and nothing is collected. -/
theorem uninitialized_crawl_raises (env : CrawlEnv)
    (hp : env.pageReady = false) :
    (crawl env).raised = some CrawlErr.runtimeError ∧
    (crawl env).dbSessionCreated = false ∧
    (crawl env).authAttempted = false ∧
    (crawl env).searchAttempted = false ∧
    (crawl env).branchesRun = 0 ∧
    (crawl env).issues = [] ∧
    (crawl env).sessionStatus = none := by
  simp [crawl, hp]

/-- Witness for `uninitialized_crawl_raises` at a concrete environment. -/
theorem uninitialized_crawl_raises_witness :
    (crawl envNoPage).raised = some CrawlErr.runtimeError ∧
    (crawl envNoPage).authAttempted = false := by
  have h := uninitialized_crawl_raises envNoPage rfl
  exact ⟨h.1, h.2.2.1⟩


/-! ## Theorems for claim C7 -/

/-- Helper: folding `record_time` keeps the accumulator and appends the
nonzero recorded durations in order. -/
theorem foldl_record_time (ds : List (Option Nat)) (acc : List Nat) :
    ds.foldl record_time acc
      = acc ++ (ds.filterMap id).filter (fun v => v ≠ 0) := by
  induction ds generalizing acc with
  | nil => simp
  | cons d ds ih =>
    cases d with
    | none => simpa using ih acc
    | some v =>
      by_cases hv : v = 0
      · subst hv
        simpa [record_time] using ih acc
      · simp only [List.foldl_cons, record_time, if_pos hv, ih,
          List.filterMap_cons, id, List.filter_cons]
        simp [hv]

/-- Claim C7, counterexample: with two successful outcomes of durations
0 ms and 2 ms, the code records only the nonzero duration and reports an
average of 2 ms, while the arithmetic mean of the successful outcomes'
durations is 1 ms. -/
theorem avg_issue_time_cex :
    avg_issue_time_ms (final_issue_times [some 0, some 2]) = 2 ∧
    arithmetic_mean [0, 2] = 1 ∧
    (avg_issue_time_ms (final_issue_times [some 0, some 2]) : ℚ)
      ≠ arithmetic_mean [0, 2] := by
  have h1 : avg_issue_time_ms (final_issue_times [some 0, some 2]) = 2 := rfl
  have h2 : arithmetic_mean [0, 2] = 1 := by
    rw [arithmetic_mean, if_neg (by decide : ([0, 2] : List ℕ) ≠ [])]
    norm_num
  refine ⟨h1, h2, ?_⟩
  rw [h1, h2]
  norm_num

/-- Claim C7 (amended): `avgIssueTimeMs` is the integer truncation of the
mean of the *nonzero* recorded durations of successful outcomes — a
duration of 0 ms is never appended to `_issue_times` — and it is 0 when no
nonzero duration was recorded (in particular when there are zero
successful outcomes, so no divide-by-zero occurs). -/
theorem avg_issue_time_truncated_nonzero_mean (ds : List (Option Nat)) :
    final_issue_times ds = (ds.filterMap id).filter (fun v => v ≠ 0) ∧
    avg_issue_time_ms (final_issue_times ds)
      = (if (ds.filterMap id).filter (fun v => v ≠ 0) = [] then 0
         else ((ds.filterMap id).filter (fun v => v ≠ 0)).sum
              / ((ds.filterMap id).filter (fun v => v ≠ 0)).length) := by
  have h := foldl_record_time ds []
  refine ⟨by simpa [final_issue_times] using h, ?_⟩
  rw [final_issue_times, h]
  simp [avg_issue_time_ms]

/-! ## Theorems for claim C8 -/

/-- Helper: a branch started without a crawl order — exactly how the
recursive calls for related issues are made (lines 379-385) — never
attaches a crawl order to any record it produces, at any depth. -/
theorem crawl_branch_none_no_order (fetchOk : String → Bool)
    (related : String → List String) (cr : Bool) (md : Nat) :
    ∀ fuel d id, md - d ≤ fuel →
      ∀ r ∈ crawl_branch fetchOk related cr md d id none,
        r.crawl_order = none := by
  intro fuel
  induction fuel with
  | zero =>
    intro d id hle r hr
    rw [crawl_branch] at hr
    by_cases hf : fetchOk id
    · rw [if_pos hf] at hr
      have hcond : ¬(cr = true ∧ d < md) := fun hc => absurd hc.2 (by omega)
      rw [if_neg hcond] at hr
      rcases List.mem_cons.1 hr with rfl | h
      · rfl
      · simp at h
    · rw [if_neg hf] at hr
      simp at hr
  | succ fuel ih =>
    intro d id hle r hr
    rw [crawl_branch] at hr
    by_cases hf : fetchOk id
    · rw [if_pos hf] at hr
      rcases List.mem_cons.1 hr with rfl | h
      · rfl
      · by_cases hcond : cr = true ∧ d < md
        · rw [if_pos hcond] at h
          rcases List.mem_flatMap.1 h with ⟨r', _, hmem⟩
          exact ih (d + 1) r' (by omega) r hmem
        · rw [if_neg hcond] at h
          simp at h
    · rw [if_neg hf] at hr
      simp at hr

/-- Helper: a branch started with the nonzero crawl order `i` — exactly
how seed branches are submitted (lines 186-198) — contributes the single
order `i` when its fetch succeeds and nothing when it fails. -/
theorem crawl_branch_some_orders (fetchOk : String → Bool)
    (related : String → List String) (cr : Bool) (md d : Nat) (id : String)
    (i : Nat) (hi : i ≠ 0) :
    (crawl_branch fetchOk related cr md d id (some i)).filterMap
        IssueRecord.crawl_order
      = if fetchOk id then [i] else [] := by
  rw [crawl_branch]
  by_cases hf : fetchOk id
  · rw [if_pos hf, if_pos hf]
    have hhead : (set_crawl_order ⟨id, none⟩ (some i)).crawl_order = some i := by
      simp [set_crawl_order, hi]
    have hchild : ∀ r ∈ (if cr = true ∧ d < md then
        ((related id).filter (fun r => r ≠ "")).flatMap
          (fun r => crawl_branch fetchOk related cr md (d + 1) r none)
      else []), r.crawl_order = none := by
      intro r hr
      split at hr
      · rcases List.mem_flatMap.1 hr with ⟨r', _, hmem⟩
        exact crawl_branch_none_no_order fetchOk related cr md (md - (d + 1))
          (d + 1) r' le_rfl r hmem
      · simp at hr
    rw [List.filterMap_cons_some hhead, List.filterMap_eq_nil_iff.2 hchild]
  · rw [if_neg hf, if_neg hf]
    rfl

/-- Helper: the crawl orders present among all collected records are the
1-based indices of the seeds whose fetch succeeded, in seed order. -/
theorem crawl_all_orders (fetchOk : String → Bool)
    (related : String → List String) (cr : Bool) (md : Nat) :
    ∀ (links : List String) (n : Nat), n ≠ 0 →
      ((List.enumFrom n links).flatMap
        (fun p => crawl_branch fetchOk related cr md 0 p.2
          (some p.1))).filterMap IssueRecord.crawl_order
        = (List.enumFrom n links).flatMap
            (fun p => if fetchOk p.2 then [p.1] else []) := by
  intro links
  induction links with
  | nil => intro n _; simp
  | cons l ls ih =>
    intro n hn
    simp only [List.enumFrom, List.flatMap_cons, List.filterMap_append]
    rw [crawl_branch_some_orders fetchOk related cr md 0 l n hn,
      ih (n + 1) (Nat.succ_ne_zero n)]

/-- Helper: those successful-seed indices form a sublist of the full index
list of the seeds. -/
theorem orders_sublist_indices (fetchOk : String → Bool) :
    ∀ (links : List String) (n : Nat),
      ((List.enumFrom n links).flatMap
        (fun p => if fetchOk p.2 then [p.1] else [])).Sublist
        ((List.enumFrom n links).map Prod.fst) := by
  intro links
  induction links with
  | nil => intro n; simp
  | cons l ls ih =>
    intro n
    simp only [List.enumFrom, List.flatMap_cons, List.map_cons]
    by_cases hf : fetchOk l
    · rw [if_pos hf, List.singleton_append]
      exact List.Sublist.cons₂ n (ih (n + 1))
    · rw [if_neg hf, List.nil_append]
      exact List.Sublist.cons n (ih (n + 1))

/-- Claim C8: among all records collected by a crawl of N seeds, the crawl
orders present are exactly the 1-based search ranks of the seeds whose
fetch succeeded — each in [1, N], pairwise distinct (seed i carries order
i) — and a branch started for a related issue (no crawl order passed, as
in the recursive calls of lines 379-385) produces only records carrying no
crawl order. -/
theorem order_preservation (fetchOk : String → Bool)
    (related : String → List String) (cr : Bool) (md : Nat)
    (links : List String) :
    ((crawl_all_records fetchOk related cr md links).filterMap
        IssueRecord.crawl_order).Nodup ∧
    (∀ o ∈ (crawl_all_records fetchOk related cr md links).filterMap
        IssueRecord.crawl_order, 1 ≤ o ∧ o ≤ links.length) ∧
    ((crawl_all_records fetchOk related cr md links).filterMap
        IssueRecord.crawl_order
      = (List.enumFrom 1 links).flatMap
          (fun p => if fetchOk p.2 then [p.1] else [])) ∧
    (∀ d id, ∀ r ∈ crawl_branch fetchOk related cr md d id none,
      r.crawl_order = none) := by
  have hchar : (crawl_all_records fetchOk related cr md links).filterMap
      IssueRecord.crawl_order
      = (List.enumFrom 1 links).flatMap
          (fun p => if fetchOk p.2 then [p.1] else []) := by
    unfold crawl_all_records
    exact crawl_all_orders fetchOk related cr md links 1 one_ne_zero
  have hsub := orders_sublist_indices fetchOk links 1
  have hmapfst : (List.enumFrom 1 links).map Prod.fst
      = List.range' 1 links.length := List.enumFrom_map_fst 1 links
  rw [hmapfst] at hsub
  refine ⟨?_, ?_, hchar, ?_⟩
  · rw [hchar]
    exact hsub.nodup (List.nodup_range' 1 links.length)
  · intro o ho
    rw [hchar] at ho
    have := List.mem_range'_1.1 (hsub.subset ho)
    omega
  · intro d id r hr
    exact crawl_branch_none_no_order fetchOk related cr md (md - d) d id
      le_rfl r hr

/-- Witness for `order_preservation`: one seed "a" (order 1, within
[1, 1]) that discovers related issue "r1", whose record carries no crawl
order. -/
theorem order_preservation_witness :
    (1 ≤ 1 ∧ 1 ≤ (["a"] : List String).length) ∧
    (⟨"r1", none⟩ : IssueRecord).crawl_order = none := by
  have h := order_preservation (fun _ => true) (fun _ => ["r1"]) true 1 ["a"]
  refine ⟨h.2.1 1 ?_, h.2.2.2 1 "r1" ⟨"r1", none⟩ ?_⟩
  · simp [crawl_all_records, crawl_branch, set_crawl_order, List.enumFrom]
  · simp [crawl_branch, set_crawl_order]

end IMSCrawler
